import Mathlib

/-!
Verification of the matchmaking core (MatchMaker.ts, WebSocketTransport.ts).

The TypeScript source is shallowly embedded: each method becomes a pure Lean
function; mutation of process-local state is explicit state passing; promises
that resolve or reject become Except values; the single external event that
settles a pending remote call (first reply message, or the timer firing) is an
explicit input.
-/

namespace Colyseus

/-- A JavaScript value, as far as truthiness and the wire payloads need. -/
inductive JsVal where
  | undef
  | null
  | bool (b : Bool)
  | num (n : Int)
  | str (s : String)
  | obj
  deriving DecidableEq, Repr

/-- JavaScript truthiness of a value. -/
def JsVal.truthy : JsVal → Bool
  | .undef => false
  | .null => false
  | .bool b => b
  | .num n => n != 0
  | .str s => s != ""
  | .obj => true

/-- Wire-stable matchmaking error codes from Protocol.ts. -/
inductive ErrorCode where
  | ERR_MATCHMAKE_NO_HANDLER
  | ERR_MATCHMAKE_INVALID_CRITERIA
  | ERR_MATCHMAKE_INVALID_ROOM_ID
  | ERR_MATCHMAKE_UNHANDLED
  | ERR_MATCHMAKE_EXPIRED
  deriving DecidableEq, Repr

/-- The client options bag: the matchmaker itself only reads sessionId; the
remaining fields are an opaque key/value record. -/
structure ClientOptions where
  sessionId : Option String
  rest : List (String × JsVal)
  deriving DecidableEq, Repr

/-- Errors that can settle a matchmaking promise. MatchMakeError and
SeatReservationError are the two error classes of the source; TimeoutError is
the plain Error built on remote-call timeout; RemoteError is reject(data) with
data of shape [processId, payload]; TypeError models a JavaScript runtime
throw such as calling a member of undefined. -/
inductive MMError where
  | MatchMakeError (message : String) (code : ErrorCode)
  | SeatReservationError (message : String)
  | TimeoutError (message : String)
  | RemoteError (processId : String) (payload : JsVal)
  | TypeError (message : String)
  deriving DecidableEq, Repr

/-- Whether an error is the retriable SeatReservationError class. -/
def MMError.isSeatReservationError : MMError → Bool
  | .SeatReservationError _ => true
  | _ => false

/-- The message carried by an error, as (e && e.message) || reads it. -/
def MMError.message : MMError → String
  | .MatchMakeError m _ => m
  | .SeatReservationError m => m
  | .TimeoutError m => m
  | .RemoteError _ p => match p with | .str s => s | _ => ""
  | .TypeError m => m

/-- A room listing row in the registry driver: one row per live room. -/
structure RoomListing where
  roomId : String
  name : String
  processId : String
  locked : Bool
  «private» : Bool
  maxClients : Nat
  clients : Nat
  extra : List (String × JsVal)
  deriving DecidableEq, Repr

/-- A successful matchmaking result: the seat reservation handed to the
client, {room, sessionId}. -/
structure SeatReservation where
  room : RoomListing
  sessionId : String
  deriving DecidableEq, Repr

/-! ### query (MatchMaker.query) and the registry find, claims C7 and C10 -/

/-- The conditions object passed to MatchMaker.query. The fields the
matchmaker touches (name, private) and the one it is claimed not to touch
(locked) are explicit; everything else is the extra bag. -/
structure Conditions where
  name : Option String
  «private» : Option Bool
  locked : Option Bool
  extra : List (String × JsVal)
  deriving DecidableEq, Repr

/-- Whether a listing satisfies every condition that is present. -/
def condMatches (c : Conditions) (l : RoomListing) : Bool :=
  (match c.name with | none => true | some n => n == l.name) &&
  (match c.«private» with | none => true | some b => b == l.«private») &&
  (match c.locked with | none => true | some b => b == l.locked) &&
  (c.extra.all (fun kv => l.extra.lookup kv.1 == some kv.2))

/-- Modelled from the spec: the registry driver find operation (the driver
implementations are not under src/). Per the spec it is a filtered find over
the listing rows, returning every listing matching the conditions. -/
def driverFind (rooms : List RoomListing) (c : Conditions) : List RoomListing :=
  rooms.filter (fun l => condMatches c l)

/-- MatchMaker.query. The source mutates the caller-supplied conditions
object in place (conditions.name = roomName when given; conditions.private =
false) and then calls driver.find on that same object. The mutation is
embedded as state passing: the first component of the result is the caller
visible conditions object after the call. -/
def query (rooms : List RoomListing) (roomName : Option String)
    (conditions : Conditions) : Conditions × List RoomListing :=
  let c1 := match roomName with
    | some n => { conditions with name := some n }
    | none => conditions
  let c2 := { c1 with «private» := some false }
  (c2, driverFind rooms c2)

/-! ### Remote room calls (MatchMaker.remoteRoomCall), claims C5 and C6 -/

/-- An argument of a remote room call, as placed in the published message:
either a plain string (a sessionId), the client options bag, or any other
value. -/
inductive RpcArg where
  | str (s : String)
  | opts (o : ClientOptions)
  | val (v : JsVal)
  deriving DecidableEq, Repr

/-- A member of a live room object, looked up as room[method]: either a data
property or a callable method. Absent names read as the undefined property. -/
inductive RoomMember where
  | prop (v : JsVal)
  | fn (f : Option (List RpcArg) → Except MMError JsVal)

/-- A process-local live room object: identity plus its member table. -/
structure Room where
  roomId : String
  roomName : String
  members : String → RoomMember

/-- The IPC reply codes. -/
inductive IpcCode where
  | SUCCESS
  | ERROR
  deriving DecidableEq, Repr

/-- A message published on a presence channel: either a remote-call request
[method, requestId, args] or a reply [code, [processId, payload]]. -/
inductive PresenceMsg where
  | request (method : String) (requestId : String) (args : Option (List RpcArg))
  | reply (code : IpcCode) (processId : String) (payload : JsVal)
  deriving Repr

/-- A presence operation performed during a call, in order. -/
inductive PresenceOp where
  | subscribe (channel : String)
  | unsubscribe (channel : String)
  | publish (channel : String) (msg : PresenceMsg)
  deriving Repr

/-- Net change a single presence operation makes to the subscription count of
a given channel. -/
def subDelta (channel : String) : PresenceOp → Int
  | .subscribe c => if c = channel then 1 else 0
  | .unsubscribe c => if c = channel then -1 else 0
  | .publish _ _ => 0

/-- Net change a sequence of presence operations makes to the subscription
count of a given channel. -/
def netSub (ops : List PresenceOp) (channel : String) : Int :=
  (ops.map (subDelta channel)).sum

/-- REMOTE_ROOM_SHORT_TIMEOUT = Number(process.env.COLYSEUS_PRESENCE_SHORT_TIMEOUT
|| 2000). The environment variable is the argument; unset yields 2000. -/
def REMOTE_ROOM_SHORT_TIMEOUT (envShortTimeout : Option Nat) : Nat :=
  envShortTimeout.getD 2000

/-- MatchMaker.getRoomChannel: the per-room remote-call channel name. -/
def getRoomChannel (roomId : String) : String :=
  "$" ++ roomId

/-- A crude JSON.stringify for an argument list, used only inside the timeout
message text. -/
def jsonOfArg : RpcArg → String
  | .str s => "\"" ++ s ++ "\""
  | .opts _ => "\x7b...\x7d"
  | .val (.str s) => "\"" ++ s ++ "\""
  | .val (.num n) => toString n
  | .val (.bool b) => toString b
  | .val .null => "null"
  | .val .undef => "null"
  | .val .obj => "\x7b\x7d"

/-- The JSON.stringify fragment of the timeout message. -/
def jsonOfArgs (args : List RpcArg) : String :=
  "[" ++ String.intercalate "," (args.map jsonOfArg) ++ "]"

/-- The descriptive message of the remote-call timeout rejection, from the
source: remote room (roomId) timed out, requesting "request". Timeout
setting: Nms. -/
def timeoutMessage (roomId method : String) (args : Option (List RpcArg))
    (rejectionTimeout : Nat) : String :=
  let request := method ++ (match args with
    | some a => " with args " ++ jsonOfArgs a
    | none => "")
  "remote room (" ++ roomId ++ ") timed out, requesting \"" ++ request ++
    "\". Timeout setting: " ++ toString rejectionTimeout ++ "ms"

/-- The direct invocation on a local room: if args is absent and the member
is not callable, the property value is returned; otherwise the member is
invoked via .apply (which throws a TypeError on a non-callable member). -/
def localInvoke (room : Room) (method : String)
    (args : Option (List RpcArg)) : Except MMError JsVal :=
  match args, room.members method with
  | none, .prop v => .ok v
  | some _, .prop _ => .error (.TypeError (method ++ " is not a function"))
  | a, .fn f => f a

/-- The external event that settles a pending non-local remote call: the
first message on the reply channel, or the rejection timer firing. -/
inductive RemoteEvent where
  | reply (code : IpcCode) (data : String × JsVal)
  | timedOut

/-- MatchMaker.remoteRoomCall. For a locally owned room the call is a direct
invocation with no presence traffic and the reply is [processId, value]. For
a non-local room the call subscribes to the per-request reply channel
roomId:requestId, publishes [method, requestId, args] on the room channel,
and is settled by the first reply (SUCCESS resolves with its data, ERROR
rejects with it) or by the timer, which rejects with the descriptive timeout
error; the reply-channel subscription is removed in every outcome. The
result pairs the ordered presence operations with the settled value. -/
def remoteRoomCall (processId : String) (localRooms : String → Option Room)
    (envShortTimeout : Option Nat) (roomId method : String)
    (args : Option (List RpcArg)) (rejectionTimeout : Option Nat)
    (requestId : String) (event : RemoteEvent) :
    List PresenceOp × Except MMError (String × JsVal) :=
  match localRooms roomId with
  | some room =>
    ([],
      match localInvoke room method args with
      | .ok v => .ok (processId, v)
      | .error e => .error e)
  | none =>
    let timeoutMs := rejectionTimeout.getD (REMOTE_ROOM_SHORT_TIMEOUT envShortTimeout)
    let channel := roomId ++ ":" ++ requestId
    let ops := [PresenceOp.subscribe channel,
                PresenceOp.publish (getRoomChannel roomId) (.request method requestId args),
                PresenceOp.unsubscribe channel]
    match event with
    | .reply .SUCCESS data => (ops, .ok data)
    | .reply .ERROR data => (ops, .error (.RemoteError data.1 data.2))
    | .timedOut => (ops, .error (.TimeoutError (timeoutMessage roomId method args timeoutMs)))

/-! ### Seat reservation (MatchMaker.reserveSeatFor), claim C3 -/

/-- A record of one remote room call issued by the matchmaker: target room,
method name and argument list. -/
structure RpcCall where
  roomId : String
  method : String
  args : List RpcArg
  deriving Repr

/-- The nondeterministic inputs of one reserveSeatFor run: the freshly
generated sessionId and the outcome of the _reserveSeat remote call (a value
when a reply arrives, an error when the call itself rejects). -/
structure ReserveEnv where
  freshSessionId : String
  remoteResult : Except MMError JsVal

/-- MatchMaker.reserveSeatFor: generate a fresh sessionId, remote-call
_reserveSeat(sessionId, options) on the room; a falsy reply raises
SeatReservationError, a truthy one returns the reservation. The result pairs
the remote call issued with the outcome. -/
def reserveSeatFor (env : ReserveEnv) (room : RoomListing)
    (options : ClientOptions) : RpcCall × Except MMError SeatReservation :=
  let sessionId := env.freshSessionId
  (⟨room.roomId, "_reserveSeat", [.str sessionId, .opts options]⟩,
    match env.remoteResult with
    | .error e => .error e
    | .ok v =>
      if !v.truthy then
        .error (.SeatReservationError (room.roomId ++ " is already full."))
      else
        .ok ⟨room, sessionId⟩)

/-! ### joinById (MatchMaker.joinById), claim C2 -/

/-- JavaScript truthiness of an optional string, as the rejoinSessionId
check reads options.sessionId. -/
def strTruthy : Option String → Bool
  | none => false
  | some s => s != ""

/-- The nondeterministic inputs of one joinById run: the registry lookup
result, the value part of the hasReservedSeat reply, and the inputs of the
nested reserveSeatFor. -/
structure JoinByIdEnv where
  findOne : Option RoomListing
  hasReservedSeatValue : JsVal
  reserve : ReserveEnv

/-- MatchMaker.joinById. Look up the listing by roomId; when present and
options.sessionId is truthy, remote-call hasReservedSeat(sessionId) and
either return the rejoin reservation or fail with ERR_MATCHMAKE_EXPIRED;
when present, no sessionId and unlocked, reserve a new seat; when locked,
fail with ERR_MATCHMAKE_INVALID_ROOM_ID; when absent, fail with
ERR_MATCHMAKE_INVALID_ROOM_ID. The result pairs the remote calls issued
with the outcome. -/
def joinById (env : JoinByIdEnv) (roomId : String) (options : ClientOptions) :
    List RpcCall × Except MMError SeatReservation :=
  match env.findOne with
  | some room =>
    if strTruthy options.sessionId then
      let sid := options.sessionId.getD ""
      ([⟨room.roomId, "hasReservedSeat", [.str sid]⟩],
        if env.hasReservedSeatValue.truthy then
          .ok ⟨room, sid⟩
        else
          .error (.MatchMakeError "session expired" .ERR_MATCHMAKE_EXPIRED))
    else if !room.locked then
      let (call, res) := reserveSeatFor env.reserve room options
      ([call], res)
    else
      ([], .error (.MatchMakeError ("room \"" ++ roomId ++ "\" is locked")
        .ERR_MATCHMAKE_INVALID_ROOM_ID))
  | none =>
    ([], .error (.MatchMakeError ("room \"" ++ roomId ++ "\" not found")
      .ERR_MATCHMAKE_INVALID_ROOM_ID))

/-! ### joinOrCreate and the retry helper, claim C1 -/

/-- Modelled from the spec: the retry helper from Utils.ts, which is not
under src/. Per the spec, joinOrCreate retries its body up to 5 times,
retrying only on SeatReservationError; any other error aborts. The body is
given per attempt index; the result pairs the settled outcome with the
number of attempts executed. retriesLeft counts the retries still allowed
after the current attempt. -/
def retryRun (body : Nat → Except MMError α) (whitelisted : MMError → Bool) :
    Nat → Nat → Except MMError α × Nat
  | retriesLeft, i =>
    match body i with
    | .ok a => (.ok a, i + 1)
    | .error e =>
      match retriesLeft with
      | 0 => (.error e, i + 1)
      | r + 1 =>
        if whitelisted e then
          retryRun body whitelisted r (i + 1)
        else
          (.error e, i + 1)

/-- The nondeterministic inputs of one attempt of the joinOrCreate body:
the queryRoom outcome (a listing, no listing, or a thrown error such as
ERR_MATCHMAKE_NO_HANDLER), the createRoom outcome, and the reserveSeatFor
outcome for whichever room was obtained. -/
structure Attempt where
  queried : Except MMError (Option RoomListing)
  created : Except MMError RoomListing
  reserved : RoomListing → Except MMError SeatReservation

/-- The body retried by joinOrCreate: query a suitable room; if none, create
one; then reserve a seat in it. -/
def joinOrCreateBody (a : Attempt) : Except MMError SeatReservation :=
  match a.queried with
  | .error e => .error e
  | .ok (some room) => a.reserved room
  | .ok none =>
    match a.created with
    | .error e => .error e
    | .ok room => a.reserved room

/-- MatchMaker.joinOrCreate: retry the query/create/reserve body up to 5
times, retrying only on SeatReservationError. -/
def joinOrCreate (attempts : Nat → Attempt) : Except MMError SeatReservation × Nat :=
  retryRun (fun i => joinOrCreateBody (attempts i)) MMError.isSeatReservationError 5 0

/-! ### The admission gate (MatchMaker.awaitRoomAvailable), claim C4 -/

/-- MatchMaker.getHandlerConcurrencyKey: the per-room-type admission counter
key. -/
def getHandlerConcurrencyKey (name : String) : String :=
  name ++ ":c"

/-- The observable outcome of one awaitRoomAvailable run: the wait before
the callback, the settled result, and the presence counters afterward. -/
structure GateResult (α : Type) where
  wait : Int
  result : Except MMError α
  counters : String → Int

/-- MatchMaker.awaitRoomAvailable: atomically increment the per-type
counter (incr returns the incremented value), read concurrency as that value
minus 1, wait min(concurrency * 100, REMOTE_ROOM_SHORT_TIMEOUT) milliseconds,
run the callback (resolving or rejecting with its outcome), and decrement the
counter in the finally clause. The callback argument is its settled
outcome. -/
def awaitRoomAvailable (shortTimeout : Nat) (counters : String → Int)
    (roomToJoin : String) (callback : Except MMError α) : GateResult α :=
  let concurrencyKey := getHandlerConcurrencyKey roomToJoin
  let incremented := counters concurrencyKey + 1
  let countersAfterIncr : String → Int :=
    fun k => if k = concurrencyKey then incremented else counters k
  let concurrency := incremented - 1
  let concurrencyTimeout := min (concurrency * 100) (shortTimeout : Int)
  let countersAfterDecr : String → Int :=
    fun k => if k = concurrencyKey then countersAfterIncr concurrencyKey - 1
             else countersAfterIncr k
  { wait := concurrencyTimeout
    result := callback
    counters := countersAfterDecr }

/-! ### Lock and unlock room references, claim C8 -/

/-- The process-local and presence state the lock/unlock handlers touch:
the local room handles, the per-room-type presence sets, the presence
key/value store, the registry rows, the channels this process is subscribed
to, and the lifecycle events emitted on registered handlers. -/
structure MMState where
  localRooms : String → Option Room
  sets : String → List String
  kv : String → Option JsVal
  registry : List RoomListing
  subs : List String
  events : List (String × String)

/-- presence.sadd: add a member to a set (no duplicates). -/
def MMState.sadd (st : MMState) (key member : String) : MMState :=
  { st with sets := fun k =>
      if k = key then
        (if member ∈ st.sets key then st.sets key else member :: st.sets key)
      else st.sets k }

/-- presence.srem: remove a member from a set. -/
def MMState.srem (st : MMState) (key member : String) : MMState :=
  { st with sets := fun k =>
      if k = key then (st.sets key).filter (fun m => m ≠ member) else st.sets k }

/-- presence.del: delete a key from the key/value store. -/
def MMState.del (st : MMState) (key : String) : MMState :=
  { st with kv := fun k => if k = key then none else st.kv k }

/-- handlers[name].emit(event, room): record the lifecycle event. -/
def MMState.emit (st : MMState) (event roomId : String) : MMState :=
  { st with events := st.events ++ [(event, roomId)] }

/-- MatchMaker.clearRoomReferences: srem the room id from its room-type set
and del the room-id presence key (the list of connecting clients). -/
def clearRoomReferences (st : MMState) (room : Room) : MMState :=
  (st.srem room.roomName room.roomId).del room.roomId

/-- MatchMaker.createRoomReferences: store the local handle, sadd the room
id to its room-type set, and when init also subscribe the room channel. -/
def createRoomReferences (st : MMState) (room : Room) (init : Bool) : MMState :=
  let st1 := { st with localRooms := fun r =>
    if r = room.roomId then some room else st.localRooms r }
  let st2 := st1.sadd room.roomName room.roomId
  if init then { st2 with subs := getRoomChannel room.roomId :: st2.subs } else st2

/-- MatchMaker.lockRoom: clear the room references and emit the lock event
on the registered handler. -/
def lockRoom (st : MMState) (room : Room) : MMState :=
  (clearRoomReferences st room).emit "lock" room.roomId

/-- MatchMaker.unlockRoom: re-create the room references (init = false) and
emit the unlock event on the registered handler. -/
def unlockRoom (st : MMState) (room : Room) : MMState :=
  (createRoomReferences st room false).emit "unlock" room.roomId

/-! ### The transport room-join path, claim C9 -/

/-- MatchMaker.getRoomById: the local room handle, when this process owns
the room. -/
def getRoomById (localRooms : String → Option Room) (roomId : String) : Option Room :=
  localRooms roomId

/-- A client-visible action of the room-join handler. -/
inductive TransportAction where
  | sendJoinError (message : String)
  | closeWithError
  deriving DecidableEq, Repr

/-- The attempted room._onJoin(client, upgradeReq) expression inside the try
block: when the lookup missed, room is undefined and reading _onJoin on it
throws a TypeError; otherwise the user join logic runs. -/
def onJoinAttempt (roomLookup : Option Room)
    (onJoin : Room → Except MMError Unit) : Except MMError Unit :=
  match roomLookup with
  | none => .error (.TypeError "Cannot read property _onJoin of undefined")
  | some room => onJoin room

/-- WebSocketTransport.handleMatchJoin: locate the local room by roomId and
invoke room._onJoin inside a try block; any failure sends the client a
JOIN_ERROR framed message carrying the error message and closes the socket
with WS_CLOSE_WITH_ERROR. -/
def handleMatchJoin (localRooms : String → Option Room)
    (onJoin : Room → Except MMError Unit) (roomId : String) :
    List TransportAction :=
  match onJoinAttempt (getRoomById localRooms roomId) onJoin with
  | .ok _ => []
  | .error e => [.sendJoinError e.message, .closeWithError]

/-! ### Concrete fixtures used to evaluate the definitions -/

/-- A sample public, unlocked listing. -/
def exListing : RoomListing :=
  { roomId := "r1", name := "battle", processId := "p1", locked := false
    «private» := false, maxClients := 4, clients := 0, extra := [] }

/-- A sample public but locked listing. -/
def exLockedListing : RoomListing :=
  { exListing with roomId := "r2", locked := true }

/-- Empty client options. -/
def exOptions : ClientOptions :=
  { sessionId := none, rest := [] }

/-- Client options carrying a sessionId, as a rejoin sends. -/
def exRejoinOptions : ClientOptions :=
  { sessionId := some "s1", rest := [] }

/-- A sample live room owned by this process, with a data property and a
seat-reservation method. -/
def exRoom : Room :=
  { roomId := "r1", roomName := "battle"
    members := fun m =>
      if m = "maxClients" then .prop (.num 4)
      else if m = "_reserveSeat" then .fn (fun _ => .ok (.bool true))
      else .prop .undef }

/-- A local-rooms table owning exactly exRoom. -/
def exLocalRooms : String → Option Room :=
  fun r => if r = "r1" then some exRoom else none

/-- A local-rooms table owning nothing. -/
def noLocalRooms : String → Option Room :=
  fun _ => none

/-- Sample presence counters: ten concurrent admissions pending on battle. -/
def exCounters : String → Int :=
  fun k => if k = "battle:c" then 10 else 0

/-- A sample matchmaker state holding exRoom and its listing. -/
def exState : MMState :=
  { localRooms := exLocalRooms
    sets := fun n => if n = "battle" then ["r1"] else []
    kv := fun k => if k = "r1" then some .obj else none
    registry := [exListing]
    subs := [getRoomChannel "r1"]
    events := [] }

/-- A reservation run whose remote reply is truthy. -/
def exReserveOk : ReserveEnv :=
  { freshSessionId := "s9", remoteResult := .ok (.bool true) }

/-- A reservation run whose remote reply is falsy (room already full). -/
def exReserveFull : ReserveEnv :=
  { freshSessionId := "s9", remoteResult := .ok (.bool false) }

/-- Attempts in which every seat reservation fails with
SeatReservationError. -/
def exSeatFailAttempts : Nat → Attempt :=
  fun _ =>
    { queried := .ok (some exListing), created := .ok exListing
      reserved := fun _ => .error (.SeatReservationError "r1 is already full.") }

/-- Attempts in which the first query throws a non-retriable
ERR_MATCHMAKE_NO_HANDLER error. -/
def exAbortAttempts : Nat → Attempt :=
  fun _ =>
    { queried := .error (.MatchMakeError "no available handler for \"battle\""
        .ERR_MATCHMAKE_NO_HANDLER)
      created := .ok exListing
      reserved := fun r => .ok ⟨r, "s9"⟩ }

/-- Sample conditions a caller might pass to query. -/
def exConditions : Conditions :=
  { name := none, «private» := none, locked := none, extra := [] }

/-! ### Theorems -/

/-- A listing matches a conditions object when each present condition agrees
with it and every extra pair is found on the listing. -/
theorem condMatches_true (c : Conditions) (l : RoomListing)
    (hn : c.name = none ∨ c.name = some l.name)
    (hp : c.«private» = none ∨ c.«private» = some l.«private»)
    (hl : c.locked = none ∨ c.locked = some l.locked)
    (he : c.extra.all (fun kv => l.extra.lookup kv.1 == some kv.2) = true) :
    condMatches c l = true := by
  unfold condMatches
  rcases hn with h1 | h1 <;> rcases hp with h2 | h2 <;> rcases hl with h3 | h3 <;>
    simp [h1, h2, h3, he]

/-- Claim C7: query forces private = false in the conditions, sets the name
condition exactly when a room name is given, leaves the locked condition and
the extra conditions untouched, and consequently a locked public room that
satisfies the remaining conditions is included in the result. -/
theorem query_forces_private_keeps_locked (rooms : List RoomListing)
    (roomName : Option String) (c : Conditions) :
    ((query rooms roomName c).1).«private» = some false ∧
    (∀ n, roomName = some n → ((query rooms roomName c).1).name = some n) ∧
    (roomName = none → ((query rooms roomName c).1).name = c.name) ∧
    ((query rooms roomName c).1).locked = c.locked ∧
    ((query rooms roomName c).1).extra = c.extra ∧
    (∀ l, l ∈ rooms → c.locked = none → l.«private» = false → l.locked = true →
      (((query rooms roomName c).1).name = none ∨
        ((query rooms roomName c).1).name = some l.name) →
      c.extra.all (fun kv => l.extra.lookup kv.1 == some kv.2) = true →
      l ∈ (query rooms roomName c).2) := by
  have hpriv2 : ((query rooms roomName c).1).«private» = some false := by
    cases roomName <;> rfl
  have hlock2 : ((query rooms roomName c).1).locked = c.locked := by
    cases roomName <;> rfl
  have hextra2 : ((query rooms roomName c).1).extra = c.extra := by
    cases roomName <;> rfl
  have hfind : (query rooms roomName c).2 = driverFind rooms (query rooms roomName c).1 := by
    cases roomName <;> rfl
  refine ⟨hpriv2, ?_, ?_, hlock2, hextra2, ?_⟩
  · intro n h; subst h; rfl
  · intro h; subst h; rfl
  · intro l hl hlockc hprivl hlockedl hname hex
    rw [hfind]
    unfold driverFind
    rw [List.mem_filter]
    refine ⟨hl, ?_⟩
    apply condMatches_true
    · exact hname
    · right; rw [hpriv2, hprivl]
    · left; rw [hlock2, hlockc]
    · rw [hextra2]; exact hex

/-- Witness for C7: a locked public listing is returned by query, whose
conditions end up with private = some false. -/
theorem query_forces_private_keeps_locked_witness :
    exLockedListing ∈ (query [exLockedListing] none exConditions).2 ∧
    ((query [exLockedListing] none exConditions).1).«private» = some false :=
  ⟨(query_forces_private_keeps_locked [exLockedListing] none exConditions).2.2.2.2.2
      exLockedListing (by simp) rfl rfl rfl (Or.inl rfl) rfl,
    (query_forces_private_keeps_locked [exLockedListing] none exConditions).1⟩

/-- Claim C10: query mutates the caller-supplied conditions object: after the
call the caller-visible object has private = some false and, when a room name
was given, name = that room name; the very same (uncopied) object is what
driver.find receives, and when the caller had not already set private = false
the caller-visible object has genuinely changed. -/
theorem query_mutates_caller_conditions (rooms : List RoomListing)
    (roomName : Option String) (c : Conditions) :
    ((query rooms roomName c).1).«private» = some false ∧
    (∀ n, roomName = some n → ((query rooms roomName c).1).name = some n) ∧
    (query rooms roomName c).2 = driverFind rooms (query rooms roomName c).1 ∧
    (c.«private» ≠ some false → (query rooms roomName c).1 ≠ c) := by
  refine ⟨?_, ?_, ?_, ?_⟩
  · cases roomName <;> rfl
  · intro n h; subst h; rfl
  · cases roomName <;> rfl
  · intro hne heq
    apply hne
    rw [← heq]
    cases roomName <;> rfl

/-- Witness for C10: with untouched caller conditions, after the call the
caller object carries name = some battle and is no longer equal to what the
caller passed in. -/
theorem query_mutates_caller_conditions_witness :
    ((query [] (some "battle") exConditions).1).name = some "battle" ∧
    (query [] (some "battle") exConditions).1 ≠ exConditions :=
  ⟨(query_mutates_caller_conditions [] (some "battle") exConditions).2.1 "battle" rfl,
    (query_mutates_caller_conditions [] (some "battle") exConditions).2.2.2
      (by simp [exConditions])⟩

/-- Claim C3: reserveSeatFor issues the remote call _reserveSeat with the
freshly generated sessionId and the given options on the room; when the
remote call replies, the run raises SeatReservationError exactly when the
reply is falsy, and on a truthy reply it returns the reservation carrying the
unchanged room listing and the fresh sessionId. -/
theorem reserveSeatFor_seat_error_iff_falsy (env : ReserveEnv)
    (room : RoomListing) (options : ClientOptions) (v : JsVal)
    (h : env.remoteResult = .ok v) :
    (reserveSeatFor env room options).1 =
      ⟨room.roomId, "_reserveSeat", [.str env.freshSessionId, .opts options]⟩ ∧
    ((reserveSeatFor env room options).2 =
        .error (.SeatReservationError (room.roomId ++ " is already full.")) ↔
      v.truthy = false) ∧
    (v.truthy = true →
      (reserveSeatFor env room options).2 = .ok ⟨room, env.freshSessionId⟩) := by
  refine ⟨rfl, ?_, ?_⟩
  · unfold reserveSeatFor
    rw [h]
    cases hv : v.truthy <;> simp [hv]
  · intro hv
    unfold reserveSeatFor
    rw [h]
    simp [hv]

/-- Witness for C3: on a truthy reply the reservation comes back with the
room unchanged, and on a falsy reply the run raises SeatReservationError. -/
theorem reserveSeatFor_seat_error_iff_falsy_witness :
    (reserveSeatFor exReserveOk exListing exOptions).2 = .ok ⟨exListing, "s9"⟩ ∧
    (reserveSeatFor exReserveFull exListing exOptions).2 =
      .error (.SeatReservationError ("r1" ++ " is already full.")) :=
  ⟨(reserveSeatFor_seat_error_iff_falsy exReserveOk exListing exOptions
      (.bool true) rfl).2.2 rfl,
    (reserveSeatFor_seat_error_iff_falsy exReserveFull exListing exOptions
      (.bool false) rfl).2.1.mpr rfl⟩

/-- Claim C2: joinById by cases. No listing: fail with
ERR_MATCHMAKE_INVALID_ROOM_ID. Listing present and options.sessionId set:
remote-call hasReservedSeat(sessionId) and return the rejoin reservation when
the reply is truthy, else fail with ERR_MATCHMAKE_EXPIRED. Listing present,
no sessionId, unlocked: reserve a new seat. Listing present but locked: fail
with ERR_MATCHMAKE_INVALID_ROOM_ID. -/
theorem joinById_case_analysis (env : JoinByIdEnv) (roomId : String)
    (options : ClientOptions) :
    (env.findOne = none →
      joinById env roomId options =
        ([], .error (.MatchMakeError ("room \"" ++ roomId ++ "\" not found")
          .ERR_MATCHMAKE_INVALID_ROOM_ID))) ∧
    (∀ room sid, env.findOne = some room → options.sessionId = some sid →
      sid ≠ "" → env.hasReservedSeatValue.truthy = true →
      joinById env roomId options =
        ([⟨room.roomId, "hasReservedSeat", [.str sid]⟩], .ok ⟨room, sid⟩)) ∧
    (∀ room sid, env.findOne = some room → options.sessionId = some sid →
      sid ≠ "" → env.hasReservedSeatValue.truthy = false →
      joinById env roomId options =
        ([⟨room.roomId, "hasReservedSeat", [.str sid]⟩],
          .error (.MatchMakeError "session expired" .ERR_MATCHMAKE_EXPIRED))) ∧
    (∀ room, env.findOne = some room → strTruthy options.sessionId = false →
      room.locked = false →
      joinById env roomId options =
        ([(reserveSeatFor env.reserve room options).1],
          (reserveSeatFor env.reserve room options).2)) ∧
    (∀ room, env.findOne = some room → strTruthy options.sessionId = false →
      room.locked = true →
      joinById env roomId options =
        ([], .error (.MatchMakeError ("room \"" ++ roomId ++ "\" is locked")
          .ERR_MATCHMAKE_INVALID_ROOM_ID))) := by
  refine ⟨?_, ?_, ?_, ?_, ?_⟩
  · intro h
    unfold joinById
    rw [h]
  · intro room sid hfind hsid hne htruthy
    unfold joinById
    rw [hfind, hsid]
    have hstr : strTruthy (some sid) = true := by simpa [strTruthy] using hne
    simp [hstr, htruthy]
  · intro room sid hfind hsid hne htruthy
    unfold joinById
    rw [hfind, hsid]
    have hstr : strTruthy (some sid) = true := by simpa [strTruthy] using hne
    simp [hstr, htruthy]
  · intro room hfind hstr hunlocked
    unfold joinById
    rw [hfind]
    simp [hstr, hunlocked]
  · intro room hfind hstr hlocked
    unfold joinById
    rw [hfind]
    simp [hstr, hlocked]

/-- Witness for C2: the four outcomes at concrete inputs — absent listing,
truthy rejoin, expired rejoin, and the locked failure. -/
theorem joinById_case_analysis_witness :
    joinById ⟨none, .bool true, exReserveOk⟩ "nope" exOptions =
      ([], .error (.MatchMakeError ("room \"" ++ "nope" ++ "\" not found")
        .ERR_MATCHMAKE_INVALID_ROOM_ID)) ∧
    joinById ⟨some exListing, .bool true, exReserveOk⟩ "r1" exRejoinOptions =
      ([⟨"r1", "hasReservedSeat", [.str "s1"]⟩], .ok ⟨exListing, "s1"⟩) ∧
    joinById ⟨some exListing, .bool false, exReserveOk⟩ "r1" exRejoinOptions =
      ([⟨"r1", "hasReservedSeat", [.str "s1"]⟩],
        .error (.MatchMakeError "session expired" .ERR_MATCHMAKE_EXPIRED)) ∧
    joinById ⟨some exLockedListing, .bool true, exReserveOk⟩ "r2" exOptions =
      ([], .error (.MatchMakeError ("room \"" ++ "r2" ++ "\" is locked")
        .ERR_MATCHMAKE_INVALID_ROOM_ID)) :=
  ⟨(joinById_case_analysis ⟨none, .bool true, exReserveOk⟩ "nope" exOptions).1 rfl,
    (joinById_case_analysis ⟨some exListing, .bool true, exReserveOk⟩ "r1"
      exRejoinOptions).2.1 exListing "s1" rfl rfl (by decide) rfl,
    (joinById_case_analysis ⟨some exListing, .bool false, exReserveOk⟩ "r1"
      exRejoinOptions).2.2.1 exListing "s1" rfl rfl (by decide) rfl,
    (joinById_case_analysis ⟨some exLockedListing, .bool true, exReserveOk⟩ "r2"
      exOptions).2.2.2.2 exLockedListing rfl rfl rfl⟩

/-- Claim C5: a remoteRoomCall to a locally owned room performs no presence
operations at all; when args is absent and the member is not callable the
property value is returned, otherwise the member is invoked, and in both
cases the reply is the pair (processId, value). -/
theorem remoteRoomCall_local_direct (processId : String)
    (localRooms : String → Option Room) (envShortTimeout : Option Nat)
    (roomId method : String) (args : Option (List RpcArg))
    (rejectionTimeout : Option Nat) (requestId : String) (event : RemoteEvent)
    (room : Room) (h : localRooms roomId = some room) :
    (remoteRoomCall processId localRooms envShortTimeout roomId method args
      rejectionTimeout requestId event).1 = [] ∧
    (∀ v, args = none → room.members method = .prop v →
      (remoteRoomCall processId localRooms envShortTimeout roomId method args
        rejectionTimeout requestId event).2 = .ok (processId, v)) ∧
    (∀ f v, room.members method = .fn f → f args = .ok v →
      (remoteRoomCall processId localRooms envShortTimeout roomId method args
        rejectionTimeout requestId event).2 = .ok (processId, v)) := by
  refine ⟨?_, ?_, ?_⟩
  · unfold remoteRoomCall
    rw [h]
  · intro v hargs hmem
    unfold remoteRoomCall
    rw [h]
    subst hargs
    simp [localInvoke, hmem]
  · intro f v hmem hf
    unfold remoteRoomCall
    rw [h]
    cases args <;> simp [localInvoke, hmem, hf]

/-- Witness for C5: on the sample local room, reading the maxClients property
and invoking the _reserveSeat method both avoid presence and reply with the
(processId, value) pair. -/
theorem remoteRoomCall_local_direct_witness :
    (remoteRoomCall "p1" exLocalRooms none "r1" "maxClients" none none "q1"
      .timedOut).1 = [] ∧
    (remoteRoomCall "p1" exLocalRooms none "r1" "maxClients" none none "q1"
      .timedOut).2 = .ok ("p1", .num 4) ∧
    (remoteRoomCall "p1" exLocalRooms none "r1" "_reserveSeat"
      (some [.str "s9", .opts exOptions]) none "q1" .timedOut).2 =
      .ok ("p1", .bool true) :=
  ⟨(remoteRoomCall_local_direct "p1" exLocalRooms none "r1" "maxClients" none
      none "q1" .timedOut exRoom rfl).1,
    (remoteRoomCall_local_direct "p1" exLocalRooms none "r1" "maxClients" none
      none "q1" .timedOut exRoom rfl).2.1 (.num 4) rfl rfl,
    (remoteRoomCall_local_direct "p1" exLocalRooms none "r1" "_reserveSeat"
      (some [.str "s9", .opts exOptions]) none "q1" .timedOut exRoom rfl).2.2
      (fun _ => .ok (.bool true)) (.bool true) rfl rfl⟩

/-- Claim C6: a remoteRoomCall to a non-local room subscribes to the
per-request reply channel, publishes the request on the room channel, and
unsubscribes in every outcome, so the net subscription change of every
channel is zero; the first SUCCESS reply resolves with its data, the first
ERROR reply rejects with it, and the timer rejects with the descriptive
timeout error whose timeout is the explicit rejectionTimeout when given and
otherwise REMOTE_ROOM_SHORT_TIMEOUT, i.e. 2000 unless the
COLYSEUS_PRESENCE_SHORT_TIMEOUT environment variable overrides it. -/
theorem remoteRoomCall_remote_settles_and_unsubscribes (processId : String)
    (localRooms : String → Option Room) (envShortTimeout : Option Nat)
    (roomId method : String) (args : Option (List RpcArg))
    (rejectionTimeout : Option Nat) (requestId : String) (event : RemoteEvent)
    (h : localRooms roomId = none) :
    (remoteRoomCall processId localRooms envShortTimeout roomId method args
      rejectionTimeout requestId event).1 =
      [PresenceOp.subscribe (roomId ++ ":" ++ requestId),
        PresenceOp.publish (getRoomChannel roomId)
          (.request method requestId args),
        PresenceOp.unsubscribe (roomId ++ ":" ++ requestId)] ∧
    (∀ channel, netSub (remoteRoomCall processId localRooms envShortTimeout
      roomId method args rejectionTimeout requestId event).1 channel = 0) ∧
    (∀ data, event = .reply .SUCCESS data →
      (remoteRoomCall processId localRooms envShortTimeout roomId method args
        rejectionTimeout requestId event).2 = .ok data) ∧
    (∀ data, event = .reply .ERROR data →
      (remoteRoomCall processId localRooms envShortTimeout roomId method args
        rejectionTimeout requestId event).2 =
        .error (.RemoteError data.1 data.2)) ∧
    (event = .timedOut →
      (remoteRoomCall processId localRooms envShortTimeout roomId method args
        rejectionTimeout requestId event).2 =
        .error (.TimeoutError (timeoutMessage roomId method args
          (rejectionTimeout.getD (REMOTE_ROOM_SHORT_TIMEOUT envShortTimeout))))) := by
  have hops : (remoteRoomCall processId localRooms envShortTimeout roomId
      method args rejectionTimeout requestId event).1 =
      [PresenceOp.subscribe (roomId ++ ":" ++ requestId),
        PresenceOp.publish (getRoomChannel roomId)
          (.request method requestId args),
        PresenceOp.unsubscribe (roomId ++ ":" ++ requestId)] := by
    unfold remoteRoomCall
    rw [h]
    cases event with
    | reply code data => cases code <;> rfl
    | timedOut => rfl
  refine ⟨hops, ?_, ?_, ?_, ?_⟩
  · intro channel
    rw [hops]
    unfold netSub subDelta
    by_cases hc : roomId ++ ":" ++ requestId = channel <;> simp [hc]
  · intro data hev
    subst hev
    unfold remoteRoomCall
    rw [h]
  · intro data hev
    subst hev
    unfold remoteRoomCall
    rw [h]
  · intro hev
    subst hev
    unfold remoteRoomCall
    rw [h]

/-- Witness for C6: with no local rooms, the timeout outcome and a SUCCESS
reply both leave a zero net subscription change on the reply channel, the
timeout rejects with the descriptive error mentioning the default 2000 ms,
and the SUCCESS reply resolves with its data. -/
theorem remoteRoomCall_remote_settles_and_unsubscribes_witness :
    netSub (remoteRoomCall "p1" noLocalRooms none "r9" "maxClients" none none
      "q1" .timedOut).1 ("r9" ++ ":" ++ "q1") = 0 ∧
    (remoteRoomCall "p1" noLocalRooms none "r9" "maxClients" none none "q1"
      .timedOut).2 = .error (.TimeoutError (timeoutMessage "r9" "maxClients"
        none 2000)) ∧
    (remoteRoomCall "p1" noLocalRooms none "r9" "maxClients" none none "q1"
      (.reply .SUCCESS ("p2", .num 4))).2 = .ok ("p2", .num 4) :=
  ⟨(remoteRoomCall_remote_settles_and_unsubscribes "p1" noLocalRooms none "r9"
      "maxClients" none none "q1" .timedOut rfl).2.1 ("r9" ++ ":" ++ "q1"),
    (remoteRoomCall_remote_settles_and_unsubscribes "p1" noLocalRooms none "r9"
      "maxClients" none none "q1" .timedOut rfl).2.2.2.2 rfl,
    (remoteRoomCall_remote_settles_and_unsubscribes "p1" noLocalRooms none "r9"
      "maxClients" none none "q1" (.reply .SUCCESS ("p2", .num 4)) rfl).2.2.1
      ("p2", .num 4) rfl⟩

/-- Full characterization of the retry helper: the attempt count is between
1 and retries + 1 past the start index, the settled outcome is the outcome of
the last attempt, every earlier attempt failed with a whitelisted error, and
a whitelisted final failure means the retries were exhausted. -/
theorem retryRun_spec {α : Type} (body : Nat → Except MMError α)
    (w : MMError → Bool) :
    ∀ r i,
      i < (retryRun body w r i).2 ∧
      (retryRun body w r i).2 ≤ i + r + 1 ∧
      (retryRun body w r i).1 = body ((retryRun body w r i).2 - 1) ∧
      (∀ j, i ≤ j → j + 1 < (retryRun body w r i).2 →
        ∃ e, body j = .error e ∧ w e = true) ∧
      (∀ e, (retryRun body w r i).1 = .error e → w e = true →
        (retryRun body w r i).2 = i + r + 1) := by
  intro r
  induction r with
  | zero =>
    intro i
    cases hb : body i with
    | ok a =>
      have hr : retryRun body w 0 i = (.ok a, i + 1) := by
        unfold retryRun; rw [hb]
      rw [hr]
      refine ⟨by omega, by omega, by simp [hb], ?_, ?_⟩
      · intro j hij hlt; omega
      · intro e' he' _; simp at he'
    | error e =>
      have hr : retryRun body w 0 i = (.error e, i + 1) := by
        unfold retryRun; rw [hb]
      rw [hr]
      refine ⟨by omega, by omega, by simp [hb], ?_, ?_⟩
      · intro j hij hlt; omega
      · intro e' _ _; omega
  | succ r ih =>
    intro i
    cases hb : body i with
    | ok a =>
      have hr : retryRun body w (r + 1) i = (.ok a, i + 1) := by
        unfold retryRun; rw [hb]
      rw [hr]
      refine ⟨by omega, by omega, by simp [hb], ?_, ?_⟩
      · intro j hij hlt; omega
      · intro e' he' _; simp at he'
    | error e =>
      cases hw : w e with
      | false =>
        have hr : retryRun body w (r + 1) i = (.error e, i + 1) := by
          unfold retryRun; rw [hb]; simp [hw]
        rw [hr]
        refine ⟨by omega, by omega, by simp [hb], ?_, ?_⟩
        · intro j hij hlt; omega
        · intro e' he' hw'
          simp only [Except.error.injEq] at he'
          subst he'
          rw [hw'] at hw
          cases hw
      | true =>
        have hr : retryRun body w (r + 1) i = retryRun body w r (i + 1) := by
          conv_lhs => unfold retryRun
          rw [hb]
          simp [hw]
        rw [hr]
        obtain ⟨h1, h2, h3, h4, h5⟩ := ih (i + 1)
        refine ⟨by omega, by omega, h3, ?_, ?_⟩
        · intro j hij hlt
          rcases Nat.eq_or_lt_of_le hij with heq | hgt
          · exact ⟨e, heq ▸ hb, hw⟩
          · exact h4 j (by omega) hlt
        · intro e' he' hw'
          have := h5 e' he' hw'
          omega

/-- Claim C1: joinOrCreate runs the query/create/reserve body through the
retry helper with 5 retries whitelisting only SeatReservationError: between 1
and 6 attempts run, the settled outcome is that of the last attempt, every
earlier attempt failed with a SeatReservationError, a SeatReservationError as
the final outcome means all 6 attempts ran, and a non-retriable first failure
aborts the whole call after a single attempt. The body itself queries a
suitable room, creates one when the query found none, and then reserves a
seat. -/
theorem joinOrCreate_retries_only_seat_reservation (attempts : Nat → Attempt) :
    1 ≤ (joinOrCreate attempts).2 ∧
    (joinOrCreate attempts).2 ≤ 6 ∧
    (joinOrCreate attempts).1 =
      joinOrCreateBody (attempts ((joinOrCreate attempts).2 - 1)) ∧
    (∀ j, j + 1 < (joinOrCreate attempts).2 →
      ∃ e, joinOrCreateBody (attempts j) = .error e ∧
        e.isSeatReservationError = true) ∧
    (∀ e, (joinOrCreate attempts).1 = .error e →
      e.isSeatReservationError = true → (joinOrCreate attempts).2 = 6) ∧
    (∀ e, joinOrCreateBody (attempts 0) = .error e →
      e.isSeatReservationError = false →
      joinOrCreate attempts = (.error e, 1)) ∧
    (∀ a e, Attempt.queried a = .error e → joinOrCreateBody a = .error e) ∧
    (∀ a room, Attempt.queried a = .ok (some room) →
      joinOrCreateBody a = a.reserved room) ∧
    (∀ a room, Attempt.queried a = .ok none → Attempt.created a = .ok room →
      joinOrCreateBody a = a.reserved room) ∧
    (∀ a e, Attempt.queried a = .ok none → Attempt.created a = .error e →
      joinOrCreateBody a = .error e) := by
  unfold joinOrCreate
  obtain ⟨h1, h2, h3, h4, h5⟩ :=
    retryRun_spec (fun i => joinOrCreateBody (attempts i))
      MMError.isSeatReservationError 5 0
  refine ⟨h1, by omega, h3, ?_, ?_, ?_, ?_, ?_, ?_, ?_⟩
  · intro j hlt
    exact h4 j (Nat.zero_le j) hlt
  · intro e he hw
    have := h5 e he hw
    omega
  · intro e hb hw
    have hn : (retryRun (fun i => joinOrCreateBody (attempts i))
        MMError.isSeatReservationError 5 0).2 = 1 := by
      by_contra hne
      obtain ⟨e', he', hw'⟩ := h4 0 (by omega) (by omega)
      rw [hb] at he'
      simp only [Except.error.injEq] at he'
      subst he'
      rw [hw'] at hw
      cases hw
    have hres : (retryRun (fun i => joinOrCreateBody (attempts i))
        MMError.isSeatReservationError 5 0).1 = .error e := by
      rw [h3, hn]
      exact hb
    rw [Prod.ext_iff]
    exact ⟨hres, hn⟩
  · intro a e hq
    unfold joinOrCreateBody
    rw [hq]
  · intro a room hq
    unfold joinOrCreateBody
    rw [hq]
  · intro a room hq hc
    unfold joinOrCreateBody
    rw [hq, hc]
  · intro a e hq hc
    unfold joinOrCreateBody
    rw [hq, hc]

/-- Witness for C1: when every attempt fails with SeatReservationError, all
6 attempts run; when the first attempt throws the non-retriable
ERR_MATCHMAKE_NO_HANDLER error, the call aborts after a single attempt with
that error. -/
theorem joinOrCreate_retries_only_seat_reservation_witness :
    (joinOrCreate exSeatFailAttempts).2 = 6 ∧
    joinOrCreate exAbortAttempts =
      (.error (.MatchMakeError "no available handler for \"battle\""
        .ERR_MATCHMAKE_NO_HANDLER), 1) :=
  ⟨(joinOrCreate_retries_only_seat_reservation exSeatFailAttempts).2.2.2.2.1
      (.SeatReservationError "r1 is already full.") rfl rfl,
    (joinOrCreate_retries_only_seat_reservation exAbortAttempts).2.2.2.2.2.1
      (.MatchMakeError "no available handler for \"battle\""
        .ERR_MATCHMAKE_NO_HANDLER) rfl rfl⟩

/-- Counterexample to C4 as stated: the wait is capped by
REMOTE_ROOM_SHORT_TIMEOUT, not by a fixed 2000 ms. With the
COLYSEUS_PRESENCE_SHORT_TIMEOUT environment variable set to 500 and ten
admissions already pending on the battle type, the gate waits
min(10 * 100, 500) = 500 ms, while the claimed formula gives
min(10 * 100, 2000) = 1000 ms. -/
theorem awaitRoomAvailable_fixed_cap_counterexample :
    (awaitRoomAvailable (REMOTE_ROOM_SHORT_TIMEOUT (some 500)) exCounters
      "battle" (.ok exListing)).wait ≠
      min ((exCounters (getHandlerConcurrencyKey "battle")) * 100) 2000 := by
  decide

/-- Claim C4 amended: the admission gate increments the per-type counter,
reads concurrency as the incremented value minus 1, waits exactly
min(concurrency * 100 ms, REMOTE_ROOM_SHORT_TIMEOUT) — which is
min(concurrency * 100 ms, 2000 ms) under the default environment — before the
query callback runs, propagates the callback outcome whether it resolves or
throws, and decrements the counter afterward in all cases, so the counters
return to their prior values. -/
theorem awaitRoomAvailable_wait_and_counter_restore {α : Type}
    (shortTimeout : Nat) (counters : String → Int) (name : String)
    (callback : Except MMError α) :
    (awaitRoomAvailable shortTimeout counters name callback).wait =
      min ((counters (getHandlerConcurrencyKey name)) * 100)
        (shortTimeout : Int) ∧
    (awaitRoomAvailable shortTimeout counters name callback).result = callback ∧
    (awaitRoomAvailable shortTimeout counters name callback).counters =
      counters ∧
    (shortTimeout = REMOTE_ROOM_SHORT_TIMEOUT none →
      (awaitRoomAvailable shortTimeout counters name callback).wait =
        min ((counters (getHandlerConcurrencyKey name)) * 100) 2000) := by
  refine ⟨?_, rfl, ?_, ?_⟩
  · show min ((counters (getHandlerConcurrencyKey name) + 1 - 1) * 100)
      (shortTimeout : Int) = _
    norm_num
  · funext k
    show (if k = getHandlerConcurrencyKey name
        then (if getHandlerConcurrencyKey name = getHandlerConcurrencyKey name
          then counters (getHandlerConcurrencyKey name) + 1 else _) - 1
        else if k = getHandlerConcurrencyKey name
          then counters (getHandlerConcurrencyKey name) + 1 else counters k) =
      counters k
    by_cases hk : k = getHandlerConcurrencyKey name <;> simp [hk]
  · intro h
    subst h
    show min ((counters (getHandlerConcurrencyKey name) + 1 - 1) * 100)
      ((REMOTE_ROOM_SHORT_TIMEOUT none : Nat) : Int) = _
    norm_num [REMOTE_ROOM_SHORT_TIMEOUT]

/-- Witness for C4 amended: with the default environment and ten pending
admissions the gate waits 1000 ms; the counters are restored even when the
callback throws; with the 500 ms override the wait is 500 ms. -/
theorem awaitRoomAvailable_wait_and_counter_restore_witness :
    (awaitRoomAvailable (REMOTE_ROOM_SHORT_TIMEOUT none) exCounters "battle"
      (.error (.MatchMakeError "no available handler for \"battle\""
        .ERR_MATCHMAKE_NO_HANDLER) : Except MMError RoomListing)).wait =
      min ((exCounters (getHandlerConcurrencyKey "battle")) * 100) 2000 ∧
    (awaitRoomAvailable (REMOTE_ROOM_SHORT_TIMEOUT none) exCounters "battle"
      (.error (.MatchMakeError "no available handler for \"battle\""
        .ERR_MATCHMAKE_NO_HANDLER) : Except MMError RoomListing)).counters =
      exCounters ∧
    (awaitRoomAvailable (REMOTE_ROOM_SHORT_TIMEOUT (some 500)) exCounters
      "battle" (.ok exListing)).wait =
      min ((exCounters (getHandlerConcurrencyKey "battle")) * 100)
        ((REMOTE_ROOM_SHORT_TIMEOUT (some 500) : Nat) : Int) :=
  ⟨(awaitRoomAvailable_wait_and_counter_restore (REMOTE_ROOM_SHORT_TIMEOUT none)
      exCounters "battle" _).2.2.2 rfl,
    (awaitRoomAvailable_wait_and_counter_restore (REMOTE_ROOM_SHORT_TIMEOUT none)
      exCounters "battle" _).2.2.1,
    (awaitRoomAvailable_wait_and_counter_restore
      (REMOTE_ROOM_SHORT_TIMEOUT (some 500)) exCounters "battle" _).1⟩

/-- Claim C8: the lock event removes the room from its room-type presence
set (other sets and the membership of other rooms are untouched) while the
registry listing rows and the local-rooms table are left unchanged; the
subsequent unlock event restores the set membership and the localRooms entry,
still leaving the registry rows unchanged. -/
theorem lockRoom_frame_and_unlock_restores (st : MMState) (room : Room) :
    (lockRoom st room).registry = st.registry ∧
    (lockRoom st room).localRooms = st.localRooms ∧
    room.roomId ∉ (lockRoom st room).sets room.roomName ∧
    (∀ n, n ≠ room.roomName → (lockRoom st room).sets n = st.sets n) ∧
    (∀ r, r ≠ room.roomId →
      (r ∈ (lockRoom st room).sets room.roomName ↔
        r ∈ st.sets room.roomName)) ∧
    room.roomId ∈ (unlockRoom (lockRoom st room) room).sets room.roomName ∧
    (unlockRoom (lockRoom st room) room).localRooms room.roomId = some room ∧
    (unlockRoom (lockRoom st room) room).registry = st.registry := by
  refine ⟨rfl, rfl, ?_, ?_, ?_, ?_, ?_, rfl⟩
  · simp [lockRoom, clearRoomReferences, MMState.srem, MMState.del,
      MMState.emit, List.mem_filter]
  · intro n hn
    simp [lockRoom, clearRoomReferences, MMState.srem, MMState.del,
      MMState.emit, hn]
  · intro r hr
    simp [lockRoom, clearRoomReferences, MMState.srem, MMState.del,
      MMState.emit, List.mem_filter, hr]
  · by_cases hmem : room.roomId ∈ (lockRoom st room).sets room.roomName <;>
      simp [unlockRoom, createRoomReferences, MMState.sadd, MMState.emit, hmem]
  · simp [unlockRoom, createRoomReferences, MMState.sadd, MMState.emit]

/-- Witness for C8: on the sample state, locking removes r1 from the battle
set while keeping the local handle and the listing row, and unlocking
restores the membership. -/
theorem lockRoom_frame_and_unlock_restores_witness :
    (lockRoom exState exRoom).registry = exState.registry ∧
    (lockRoom exState exRoom).localRooms = exState.localRooms ∧
    "r1" ∉ (lockRoom exState exRoom).sets "battle" ∧
    (lockRoom exState exRoom).sets "chat" = exState.sets "chat" ∧
    "r1" ∈ (unlockRoom (lockRoom exState exRoom) exRoom).sets "battle" :=
  ⟨(lockRoom_frame_and_unlock_restores exState exRoom).1,
    (lockRoom_frame_and_unlock_restores exState exRoom).2.1,
    (lockRoom_frame_and_unlock_restores exState exRoom).2.2.1,
    (lockRoom_frame_and_unlock_restores exState exRoom).2.2.2.1 "chat"
      (by decide),
    (lockRoom_frame_and_unlock_restores exState exRoom).2.2.2.2.2.1⟩

/-- Claim C9: on the room-join path, a roomId that does not resolve to a
local room makes the lookup yield undefined, so the attempted
room._onJoin throws inside the try block and the handler sends the client a
JOIN_ERROR framed message and closes the socket with WS_CLOSE_WITH_ERROR —
the same action sequence taken when _onJoin of an existing room fails; a
successful _onJoin performs neither action. -/
theorem handleMatchJoin_miss_closes_with_error
    (localRooms : String → Option Room) (onJoin : Room → Except MMError Unit)
    (roomId : String) :
    (getRoomById localRooms roomId = none →
      handleMatchJoin localRooms onJoin roomId =
        [.sendJoinError
          (MMError.TypeError "Cannot read property _onJoin of undefined").message,
          .closeWithError]) ∧
    (∀ room e, getRoomById localRooms roomId = some room →
      onJoin room = .error e →
      handleMatchJoin localRooms onJoin roomId =
        [.sendJoinError e.message, .closeWithError]) ∧
    (∀ room, getRoomById localRooms roomId = some room →
      onJoin room = .ok () →
      handleMatchJoin localRooms onJoin roomId = []) := by
  refine ⟨?_, ?_, ?_⟩
  · intro h
    unfold handleMatchJoin onJoinAttempt
    rw [h]
  · intro room e hfind hjoin
    unfold handleMatchJoin onJoinAttempt
    rw [hfind]
    simp [hjoin]
  · intro room hfind hjoin
    unfold handleMatchJoin onJoinAttempt
    rw [hfind]
    simp [hjoin]

/-- Witness for C9: an unknown room id and a failing _onJoin on the sample
room produce the same JOIN_ERROR-then-close action sequence shape. -/
theorem handleMatchJoin_miss_closes_with_error_witness :
    handleMatchJoin exLocalRooms (fun _ => .ok ()) "missing" =
      [.sendJoinError "Cannot read property _onJoin of undefined",
        .closeWithError] ∧
    handleMatchJoin exLocalRooms
      (fun _ => .error (.MatchMakeError "join failed"
        .ERR_MATCHMAKE_UNHANDLED)) "r1" =
      [.sendJoinError "join failed", .closeWithError] ∧
    handleMatchJoin exLocalRooms (fun _ => .ok ()) "r1" = [] :=
  ⟨(handleMatchJoin_miss_closes_with_error exLocalRooms (fun _ => .ok ())
      "missing").1 rfl,
    (handleMatchJoin_miss_closes_with_error exLocalRooms
      (fun _ => .error (.MatchMakeError "join failed"
        .ERR_MATCHMAKE_UNHANDLED)) "r1").2.1 exRoom
      (.MatchMakeError "join failed" .ERR_MATCHMAKE_UNHANDLED) rfl rfl,
    (handleMatchJoin_miss_closes_with_error exLocalRooms (fun _ => .ok ())
      "r1").2.2 exRoom rfl rfl⟩

end Colyseus
